import Mathlib

/-!
Verification of the financial-impact analysis engine in
`mcp_health/core/data_analysis.py` (class `HealthcareProductivityAnalyzer`).

Shallow embedding conventions:
- Python floats are modelled as rationals (`ℚ`); every arithmetic operation
  the engine performs (`+`, `-`, `*`, `/`, integer powers of `1.05`) is exact
  on rationals.
- A Python `dict` of metrics is modelled as an association list
  (`MetricMap`), with `lookupK` for `d[k]` reads and `setK` for `d[k] = v`
  writes (replace-in-place or append, matching dict insertion-order
  semantics); `dict.copy()` is the identity on the pure value.
- Exceptions the Python code can raise are made explicit in an `Except`
  result: a missing dict key is `PyError.keyError k`, and a division whose
  denominator is zero is `PyError.zeroDivisionError` (Python raises
  `ZeroDivisionError` for both int and float zero denominators).
- pandas DataFrames are modelled as lists of (typed) rows; `.mean()` is
  sum / length, `.sum()` is the list sum, `.iloc[0]` is the head, `.empty`
  is emptiness of the list.
-/

/-- Exceptions the analyzer's methods can raise. -/
inductive PyError where
  | keyError : String → PyError
  | zeroDivisionError : PyError
deriving DecidableEq

/-- `self.ai_improvements`, the improvement-factor mapping set in
`HealthcareProductivityAnalyzer.__init__`.  It is an instance attribute, so
the methods that read it are embedded with it as an explicit parameter. -/
structure AIImprovements where
  admin_efficiency_gain : ℚ
  processing_speed_gain : ℚ
  error_reduction : ℚ
  throughput_increase : ℚ
  cost_reduction : ℚ
deriving DecidableEq

/-- The default improvement factors from `__init__`. -/
def ai_improvements : AIImprovements :=
  { admin_efficiency_gain := 52/100
    processing_speed_gain := 75/100
    error_reduction := 76/100
    throughput_increase := 24/100
    cost_reduction := 71/1000 }

/-- `self.japan_constants['average_hourly_wage']` (¥3000/hour). -/
def average_hourly_wage : ℚ := 3000

/-- `self.japan_constants['error_cost_multiplier']` (1.5). -/
def error_cost_multiplier : ℚ := 3/2

/-- `self.japan_constants['total_healthcare_cost']` (¥45e12). -/
def total_healthcare_cost : ℚ := 45 * 10 ^ 12

/-- `self.japan_constants['patients_per_worker_baseline']` (20). -/
def patients_per_worker_baseline : ℚ := 20

/-- The constant `annual_patients = 47000000` hard-coded in
`calculate_cost_savings` (and reused as the patient-count fallback in
`calculate_baseline_metrics`). -/
def annual_patients : ℚ := 47000000

/-- A metrics dictionary (`Dict[str, float]`), as passed between the
analyzer's methods: an association list from metric name to value. -/
abbrev MetricMap : Type := List (String × ℚ)

/-- Dict read `d[k]`, as an `Option` (the first binding of `k`, matching
dict semantics since keys are unique). -/
def lookupK (m : MetricMap) (k : String) : Option ℚ :=
  (m.find? (fun p => p.1 == k)).map (fun p => p.2)

/-- Dict write `d[k] = v`: replaces the binding of `k` in place if present,
otherwise appends it (dicts preserve insertion order). -/
def setK : MetricMap → String → ℚ → MetricMap
  | [], k, v => [(k, v)]
  | (k2, v2) :: rest, k, v =>
      if k2 == k then (k, v) :: rest else (k2, v2) :: setK rest k v

/-- The five metric names `calculate_ai_impact_metrics` reads and writes. -/
def metricKeys : List String :=
  ["admin_hours_per_patient", "processing_time_hours", "billing_error_rate",
   "patients_per_worker", "cost_per_patient"]

/-- `HealthcareProductivityAnalyzer.calculate_ai_impact_metrics` (lines
180-198).  `ai_metrics = baseline.copy()` followed by the five field
assignments; each assignment reads `baseline[key]`, so the first missing key
(in source order) raises a `KeyError`. -/
def calculate_ai_impact_metrics (imp : AIImprovements) (baseline : MetricMap) :
    Except PyError MetricMap :=
  match lookupK baseline "admin_hours_per_patient" with
  | none => .error (.keyError "admin_hours_per_patient")
  | some a =>
  match lookupK baseline "processing_time_hours" with
  | none => .error (.keyError "processing_time_hours")
  | some p =>
  match lookupK baseline "billing_error_rate" with
  | none => .error (.keyError "billing_error_rate")
  | some e =>
  match lookupK baseline "patients_per_worker" with
  | none => .error (.keyError "patients_per_worker")
  | some w =>
  match lookupK baseline "cost_per_patient" with
  | none => .error (.keyError "cost_per_patient")
  | some c =>
    .ok (setK (setK (setK (setK (setK baseline
      "admin_hours_per_patient" (a * (1 - imp.admin_efficiency_gain)))
      "processing_time_hours" (p * (1 - imp.processing_speed_gain)))
      "billing_error_rate" (e * (1 - imp.error_reduction)))
      "patients_per_worker" (w * (1 + imp.throughput_increase)))
      "cost_per_patient" (c * (1 - imp.cost_reduction)))

/-- A full metric set with all five recognized fields, as produced by
`calculate_baseline_metrics` (dict keys become structure fields). -/
structure Metrics where
  admin_hours_per_patient : ℚ
  processing_time_hours : ℚ
  billing_error_rate : ℚ
  patients_per_worker : ℚ
  cost_per_patient : ℚ
deriving DecidableEq

/-- The savings dictionary returned by `calculate_cost_savings`. -/
structure Savings where
  admin_labor_savings : ℚ
  error_cost_savings : ℚ
  additional_revenue : ℚ
  processing_efficiency_savings : ℚ
  total_annual_savings : ℚ
deriving DecidableEq

/-- `HealthcareProductivityAnalyzer.calculate_cost_savings` (lines 200-242).
The only fallible operation is the division
`ai_metrics['patients_per_worker'] / baseline['patients_per_worker']`
(line 226), which raises `ZeroDivisionError` when the denominator is zero.
`sum([...])` on line 235 is the left-to-right sum of the four categories. -/
def calculate_cost_savings (baseline ai_metrics : Metrics) :
    Except PyError Savings :=
  if baseline.patients_per_worker = 0 then .error .zeroDivisionError
  else
    let admin_hours_saved :=
      (baseline.admin_hours_per_patient - ai_metrics.admin_hours_per_patient)
        * annual_patients
    let admin_labor_savings := admin_hours_saved * average_hourly_wage
    let error_reduction :=
      baseline.billing_error_rate - ai_metrics.billing_error_rate
    let baseline_error_cost :=
      baseline.cost_per_patient * baseline.billing_error_rate
        * error_cost_multiplier
    let error_cost_savings := error_reduction * baseline_error_cost * annual_patients
    let additional_patients :=
      annual_patients
        * (ai_metrics.patients_per_worker / baseline.patients_per_worker - 1)
    let avg_revenue_per_patient := baseline.cost_per_patient * (7/10)
    let additional_revenue := additional_patients * avg_revenue_per_patient
    let processing_hours_saved :=
      (baseline.processing_time_hours - ai_metrics.processing_time_hours)
        * annual_patients * (1/10)
    let processing_efficiency_savings := processing_hours_saved * average_hourly_wage
    .ok
      { admin_labor_savings := admin_labor_savings
        error_cost_savings := error_cost_savings
        additional_revenue := additional_revenue
        processing_efficiency_savings := processing_efficiency_savings
        total_annual_savings :=
          admin_labor_savings + error_cost_savings + additional_revenue
            + processing_efficiency_savings }

/-- One row of the `administrative_costs` table (only the columns the
baseline calculator reads). -/
structure AdminRow where
  hours_per_patient : ℚ
  avg_processing_time : ℚ
  error_rate : ℚ
deriving DecidableEq

/-- pandas `Series.mean()`: sum divided by row count. -/
def listMean (l : List ℚ) : ℚ := l.sum / l.length

/-- `HealthcareProductivityAnalyzer.calculate_baseline_metrics`
(lines 129-178), over the four tables it reads: `administrative_costs`
(three columns), and the `total_workers`, `total_patients` and
`total_expenditure` columns of the other three tables.  A table absent from
the input dict is an empty DataFrame (`data.get(k, pd.DataFrame())`), so
absence and emptiness coincide and each table is one list.  The only
fallible operation is `total_cost / total_patients` (line 174), reached when
the expenditure table is non-empty; its denominator is the patient sum when
the patient table is non-empty (else the constant 47000000). -/
def calculate_baseline_metrics (admin : List AdminRow)
    (workforce patient expenditure : List ℚ) : Except PyError Metrics :=
  let admin_hours_per_patient :=
    if admin = [] then 2 else listMean (admin.map (fun r => r.hours_per_patient))
  let processing_time_hours :=
    if admin = [] then 4 else listMean (admin.map (fun r => r.avg_processing_time))
  let billing_error_rate :=
    if admin = [] then 1/40 else listMean (admin.map (fun r => r.error_rate))
  let patients_per_worker :=
    if workforce ≠ [] ∧ patient ≠ [] then
      if 0 < workforce.sum then patient.sum / workforce.sum else 20
    else patients_per_worker_baseline
  match expenditure with
  | [] =>
      .ok
        { admin_hours_per_patient := admin_hours_per_patient
          processing_time_hours := processing_time_hours
          billing_error_rate := billing_error_rate
          patients_per_worker := patients_per_worker
          cost_per_patient := total_healthcare_cost / 47000000 }
  | total_cost :: _ =>
      let total_patients := if patient = [] then 47000000 else patient.sum
      if total_patients = 0 then .error .zeroDivisionError
      else
        .ok
          { admin_hours_per_patient := admin_hours_per_patient
            processing_time_hours := processing_time_hours
            billing_error_rate := billing_error_rate
            patients_per_worker := patients_per_worker
            cost_per_patient := total_cost / total_patients }

/-- One entry of `yearly_analysis` in `calculate_roi_analysis`. -/
structure YearRecord where
  year : ℕ
  savings : ℚ
  costs : ℚ
  net_benefit : ℚ
  cumulative_net : ℚ
  roi_percentage : ℚ
deriving DecidableEq

/-- The dictionary returned by `calculate_roi_analysis`. -/
structure ROIAnalysis where
  yearly_analysis : List YearRecord
  total_roi_percentage : ℚ
  payback_period_years : Option ℕ
  total_investment : ℚ
  total_savings : ℚ
  net_benefit : ℚ
deriving DecidableEq

/-- The `for year in range(1, years + 1)` loop of `calculate_roi_analysis`
(lines 269-284), as structural recursion on the number of remaining
iterations.  Arguments: remaining iterations, current `year`, accumulated
`cumulative_savings` and `cumulative_costs`.  Returns the appended records
and the two accumulators' final values. -/
def roiLoop (annual_savings annual_maintenance upfront_cost : ℚ) :
    ℕ → ℕ → ℚ → ℚ → List YearRecord × ℚ × ℚ
  | 0, _, cumulative_savings, cumulative_costs =>
      ([], cumulative_savings, cumulative_costs)
  | k + 1, year, cumulative_savings, cumulative_costs =>
      let yearly_savings := annual_savings * (21/20 : ℚ) ^ (year - 1)
      let yearly_costs := annual_maintenance
      let net_yearly_benefit := yearly_savings - yearly_costs
      let cumulative_savings2 := cumulative_savings + net_yearly_benefit
      let cumulative_costs2 := cumulative_costs + yearly_costs
      let record : YearRecord :=
        { year := year
          savings := yearly_savings
          costs := yearly_costs
          net_benefit := net_yearly_benefit
          cumulative_net := cumulative_savings2
          roi_percentage :=
            if 0 < upfront_cost then cumulative_savings2 / upfront_cost * 100
            else 0 }
      let rest :=
        roiLoop annual_savings annual_maintenance upfront_cost k (year + 1)
          cumulative_savings2 cumulative_costs2
      (record :: rest.1, rest.2)

/-- `HealthcareProductivityAnalyzer.calculate_roi_analysis` (lines 244-302).
`upfront_cost` and `annual_maintenance` stand for the sums read from the
`ai_costs` table (or their defaults), `annual_savings` for
`savings['total_annual_savings']`, and `years` for the `years` argument
(a Python `int`, so modelled as `ℤ`; `range(1, years + 1)` iterates
`max years 0` times, i.e. `years.toNat`).  The payback scan (lines 287-291)
takes the first record with `cumulative_net >= 0` and stops. -/
def calculate_roi_analysis (upfront_cost annual_maintenance annual_savings : ℚ)
    (years : ℤ) : ROIAnalysis :=
  let res := roiLoop annual_savings annual_maintenance upfront_cost
    years.toNat 1 0 upfront_cost
  let yearly_analysis := res.1
  let cumulative_savings := res.2.1
  { yearly_analysis := yearly_analysis
    total_roi_percentage :=
      if 0 < upfront_cost then cumulative_savings / upfront_cost * 100 else 0
    payback_period_years :=
      (yearly_analysis.find? (fun r => decide (0 ≤ r.cumulative_net))).map
        (fun r => r.year)
    total_investment := upfront_cost + annual_maintenance * (years : ℚ)
    total_savings := cumulative_savings + upfront_cost
    net_benefit := cumulative_savings }

/-! ## Closed forms and helper lemmas -/

/-- The running value of `cumulative_savings` after `y` loop iterations:
initialized to `0` (not including the upfront cost) and accumulating
`yearly_savings - yearly_costs` each year. -/
def cumNet (annual_savings annual_maintenance : ℚ) : ℕ → ℚ
  | 0 => 0
  | y + 1 =>
      cumNet annual_savings annual_maintenance y
        + (annual_savings * (21/20 : ℚ) ^ y - annual_maintenance)

/-- The record the loop appends for (1-indexed) year `y`. -/
def yearRec (annual_savings annual_maintenance upfront_cost : ℚ) (y : ℕ) :
    YearRecord :=
  { year := y
    savings := annual_savings * (21/20 : ℚ) ^ (y - 1)
    costs := annual_maintenance
    net_benefit := annual_savings * (21/20 : ℚ) ^ (y - 1) - annual_maintenance
    cumulative_net := cumNet annual_savings annual_maintenance y
    roi_percentage :=
      if 0 < upfront_cost then
        cumNet annual_savings annual_maintenance y / upfront_cost * 100
      else 0 }

/-! Concrete inputs used by counterexamples and witnesses below. -/

/-- A baseline dict missing the `admin_hours_per_patient` key (but holding
the other four recognized metrics). -/
def missingFieldBaseline : MetricMap :=
  [("processing_time_hours", 4), ("billing_error_rate", 1/40),
   ("patients_per_worker", 20), ("cost_per_patient", 250000)]

/-- A baseline dict with all five recognized metrics plus one extra key. -/
def frameBaseline : MetricMap :=
  [("extra_key", 7), ("admin_hours_per_patient", 1), ("processing_time_hours", 1),
   ("billing_error_rate", 1), ("patients_per_worker", 1), ("cost_per_patient", 1)]

/-- The dict `calculate_ai_impact_metrics ai_improvements frameBaseline`
returns (the five assignments applied to the copy of `frameBaseline`). -/
def frameImproved : MetricMap :=
  setK (setK (setK (setK (setK frameBaseline
    "admin_hours_per_patient" (1 * (1 - ai_improvements.admin_efficiency_gain)))
    "processing_time_hours" (1 * (1 - ai_improvements.processing_speed_gain)))
    "billing_error_rate" (1 * (1 - ai_improvements.error_reduction)))
    "patients_per_worker" (1 * (1 + ai_improvements.throughput_increase)))
    "cost_per_patient" (1 * (1 - ai_improvements.cost_reduction))

/-- An improvement-factor set whose only nonzero factor is
`error_reduction = 1/2` (a value inside `[0, 1)`). -/
def zeroErrImp : AIImprovements :=
  { admin_efficiency_gain := 0
    processing_speed_gain := 0
    error_reduction := 1/2
    throughput_increase := 0
    cost_reduction := 0 }

/-- A valid baseline dict whose `billing_error_rate` is `0` (the spec's
MetricSet invariant only requires `error_rate ∈ [0, 1]`). -/
def zeroErrBaseline : MetricMap :=
  [("admin_hours_per_patient", 2), ("processing_time_hours", 4),
   ("billing_error_rate", 0), ("patients_per_worker", 20),
   ("cost_per_patient", 250000)]

/-- The dict `calculate_ai_impact_metrics zeroErrImp zeroErrBaseline`
returns. -/
def zeroErrImproved : MetricMap :=
  setK (setK (setK (setK (setK zeroErrBaseline
    "admin_hours_per_patient" (2 * (1 - zeroErrImp.admin_efficiency_gain)))
    "processing_time_hours" (4 * (1 - zeroErrImp.processing_speed_gain)))
    "billing_error_rate" (0 * (1 - zeroErrImp.error_reduction)))
    "patients_per_worker" (20 * (1 + zeroErrImp.throughput_increase)))
    "cost_per_patient" (250000 * (1 - zeroErrImp.cost_reduction))

lemma lookupK_nil (k : String) : lookupK [] k = none := rfl

lemma roiLoop_eq (a m u : ℚ) :
    ∀ (k off : ℕ) (cc : ℚ),
      roiLoop a m u k (off + 1) (cumNet a m off) cc
        = ((List.range' (off + 1) k).map (yearRec a m u),
           cumNet a m (off + k), cc + m * (k : ℚ)) := by
  intro k
  induction k with
  | zero =>
      intro off cc
      simp [roiLoop, List.range']
  | succ k ih =>
      intro off cc
      have hstep : cumNet a m off + (a * (21/20 : ℚ) ^ (off + 1 - 1) - m)
          = cumNet a m (off + 1) := by
        simp [cumNet]
      have hrec := ih (off + 1) (cc + m)
      simp only [roiLoop, hstep]
      rw [hrec, List.range'_succ, List.map_cons]
      simp only [Prod.mk.injEq]
      refine ⟨?_, ?_, ?_⟩
      · simp [yearRec]
      · exact congrArg (cumNet a m) (by omega)
      · push_cast
        ring

lemma calculate_roi_analysis_eq (u m a : ℚ) (years : ℤ) :
    calculate_roi_analysis u m a years
      = { yearly_analysis := (List.range' 1 years.toNat).map (yearRec a m u)
          total_roi_percentage :=
            if 0 < u then cumNet a m years.toNat / u * 100 else 0
          payback_period_years :=
            (List.range' 1 years.toNat).find?
              (fun y => decide (0 ≤ cumNet a m y))
          total_investment := u + m * (years : ℚ)
          total_savings := cumNet a m years.toNat + u
          net_benefit := cumNet a m years.toNat } := by
  have h0 := roiLoop_eq a m u years.toNat 0 u
  simp only [cumNet] at h0
  unfold calculate_roi_analysis
  rw [h0]
  simp only [Nat.zero_add]
  refine congrArg₂ (fun p q =>
    { yearly_analysis := (List.range' 1 years.toNat).map (yearRec a m u)
      total_roi_percentage :=
        if 0 < u then cumNet a m years.toNat / u * 100 else 0
      payback_period_years := p
      total_investment := q
      total_savings := cumNet a m years.toNat + u
      net_benefit := cumNet a m years.toNat : ROIAnalysis }) ?_ rfl
  rw [List.find?_map]
  rw [Option.map_map]
  have hpred : ((fun r : YearRecord => decide (0 ≤ r.cumulative_net))
      ∘ yearRec a m u) = fun y => decide (0 ≤ cumNet a m y) := by
    funext y
    rfl
  have hyear : ((fun r : YearRecord => r.year) ∘ yearRec a m u) = id := by
    funext y
    rfl
  rw [hpred, hyear, Option.map_id]
  rfl

lemma find?_range'_eq_some (q : ℕ → Bool) :
    ∀ (n s y : ℕ), ((List.range' s n).find? q = some y
      ↔ (s ≤ y ∧ y < s + n ∧ q y = true
          ∧ ∀ z, s ≤ z → z < y → q z = false)) := by
  intro n
  induction n with
  | zero =>
      intro s y
      simp only [List.range']
      constructor
      · intro h
        simp [List.find?] at h
      · rintro ⟨h1, h2, -, -⟩
        omega
  | succ n ih =>
      intro s y
      rw [List.range'_succ]
      by_cases hq : q s
      · rw [List.find?_cons_of_pos _ hq]
        simp only [Option.some.injEq]
        constructor
        · rintro rfl
          exact ⟨le_rfl, by omega, hq, fun z h1 h2 => absurd h1 (by omega)⟩
        · rintro ⟨h1, h2, h3, h4⟩
          rcases Nat.lt_or_ge s y with h5 | h5
          · exact absurd (h4 s le_rfl h5) (by simp [hq])
          · omega
      · rw [List.find?_cons_of_neg _ hq]
        rw [ih (s + 1) y]
        constructor
        · rintro ⟨h1, h2, h3, h4⟩
          refine ⟨by omega, by omega, h3, fun z hz1 hz2 => ?_⟩
          rcases Nat.eq_or_lt_of_le hz1 with rfl | h5
          · exact Bool.eq_false_iff.mpr hq
          · exact h4 z (by omega) hz2
        · rintro ⟨h1, h2, h3, h4⟩
          have hsy : s ≠ y := by
            rintro rfl
            exact hq h3
          exact ⟨by omega, by omega, h3, fun z hz1 hz2 => h4 z (by omega) hz2⟩

lemma lookupK_cons (k2 : String) (v2 : ℚ) (tl : MetricMap) (k : String) :
    lookupK ((k2, v2) :: tl) k = if k2 == k then some v2 else lookupK tl k := by
  by_cases h : (k2 == k) = true
  · simp only [lookupK, List.find?, h]
    simp [h]
  · simp only [lookupK, List.find?]
    rw [show ((k2, v2).1 == k) = false from by simpa using h]
    simp [h, lookupK]

lemma lookupK_setK_self (m : MetricMap) (k : String) (v : ℚ) :
    lookupK (setK m k v) k = some v := by
  induction m with
  | nil =>
      simp [setK, lookupK_cons]
  | cons hd tl ih =>
      obtain ⟨k2, v2⟩ := hd
      by_cases h : (k2 == k) = true
      · rw [setK, if_pos h, lookupK_cons]
        simp
      · rw [setK, if_neg (by simpa using h), lookupK_cons, if_neg (by simpa using h)]
        exact ih

lemma lookupK_setK_ne (m : MetricMap) (key k : String) (v : ℚ) (h : k ≠ key) :
    lookupK (setK m key v) k = lookupK m k := by
  induction m with
  | nil =>
      rw [setK, lookupK_cons, if_neg (by simpa using fun e => h e.symm)]
  | cons hd tl ih =>
      obtain ⟨k2, v2⟩ := hd
      by_cases h2 : (k2 == key) = true
      · rw [setK, if_pos h2, lookupK_cons,
          if_neg (by simpa using fun e => h e.symm), lookupK_cons]
        have : k2 = key := by simpa using h2
        subst this
        rw [if_neg (by simpa using fun e => h e.symm)]
      · rw [setK, if_neg h2, lookupK_cons, lookupK_cons]
        by_cases h3 : (k2 == k) = true
        · rw [if_pos h3, if_pos h3]
        · rw [if_neg h3, if_neg h3]
          exact ih

lemma yearly_analysis_eq (u m a : ℚ) (years : ℤ) :
    (calculate_roi_analysis u m a years).yearly_analysis
      = (List.range' 1 years.toNat).map (yearRec a m u) := by
  rw [calculate_roi_analysis_eq]

lemma payback_eq (u m a : ℚ) (years : ℤ) :
    (calculate_roi_analysis u m a years).payback_period_years
      = (List.range' 1 years.toNat).find? (fun y => decide (0 ≤ cumNet a m y)) := by
  rw [calculate_roi_analysis_eq]

lemma total_roi_eq (u m a : ℚ) (years : ℤ) :
    (calculate_roi_analysis u m a years).total_roi_percentage
      = if 0 < u then cumNet a m years.toNat / u * 100 else 0 := by
  rw [calculate_roi_analysis_eq]

lemma total_investment_eq (u m a : ℚ) (years : ℤ) :
    (calculate_roi_analysis u m a years).total_investment
      = u + m * (years : ℚ) := by
  rw [calculate_roi_analysis_eq]

lemma calc_ai_ok_elim (imp : AIImprovements) (b improved : MetricMap)
    (h : calculate_ai_impact_metrics imp b = .ok improved) :
    ∃ a p e w c,
      lookupK b "admin_hours_per_patient" = some a ∧
      lookupK b "processing_time_hours" = some p ∧
      lookupK b "billing_error_rate" = some e ∧
      lookupK b "patients_per_worker" = some w ∧
      lookupK b "cost_per_patient" = some c ∧
      improved = setK (setK (setK (setK (setK b
        "admin_hours_per_patient" (a * (1 - imp.admin_efficiency_gain)))
        "processing_time_hours" (p * (1 - imp.processing_speed_gain)))
        "billing_error_rate" (e * (1 - imp.error_reduction)))
        "patients_per_worker" (w * (1 + imp.throughput_increase)))
        "cost_per_patient" (c * (1 - imp.cost_reduction)) := by
  unfold calculate_ai_impact_metrics at h
  cases hA : lookupK b "admin_hours_per_patient" with
  | none => rw [hA] at h; simp at h
  | some a =>
  rw [hA] at h
  cases hP : lookupK b "processing_time_hours" with
  | none => rw [hP] at h; simp at h
  | some p =>
  rw [hP] at h
  cases hE : lookupK b "billing_error_rate" with
  | none => rw [hE] at h; simp at h
  | some e =>
  rw [hE] at h
  cases hW : lookupK b "patients_per_worker" with
  | none => rw [hW] at h; simp at h
  | some w =>
  rw [hW] at h
  cases hC : lookupK b "cost_per_patient" with
  | none => rw [hC] at h; simp at h
  | some c =>
  rw [hC] at h
  simp only [Except.ok.injEq] at h
  exact ⟨a, p, e, w, c, rfl, rfl, rfl, rfl, rfl, h.symm⟩

lemma calc_ai_ok_shape (imp : AIImprovements) (b : MetricMap) (a p e w c : ℚ)
    (hA : lookupK b "admin_hours_per_patient" = some a)
    (hP : lookupK b "processing_time_hours" = some p)
    (hE : lookupK b "billing_error_rate" = some e)
    (hW : lookupK b "patients_per_worker" = some w)
    (hC : lookupK b "cost_per_patient" = some c) :
    calculate_ai_impact_metrics imp b
      = .ok (setK (setK (setK (setK (setK b
          "admin_hours_per_patient" (a * (1 - imp.admin_efficiency_gain)))
          "processing_time_hours" (p * (1 - imp.processing_speed_gain)))
          "billing_error_rate" (e * (1 - imp.error_reduction)))
          "patients_per_worker" (w * (1 + imp.throughput_increase)))
          "cost_per_patient" (c * (1 - imp.cost_reduction))) := by
  unfold calculate_ai_impact_metrics
  rw [hA, hP, hE, hW, hC]

lemma calc_ai_billing_value (imp : AIImprovements) (b improved : MetricMap)
    (e : ℚ) (hE : lookupK b "billing_error_rate" = some e)
    (h : calculate_ai_impact_metrics imp b = .ok improved) :
    lookupK improved "billing_error_rate"
      = some (e * (1 - imp.error_reduction)) := by
  obtain ⟨a, p, e2, w, c, -, -, hE2, -, -, rfl⟩ := calc_ai_ok_elim imp b improved h
  rw [hE] at hE2
  injection hE2 with he
  subst he
  rw [lookupK_setK_ne _ _ _ _ (by decide), lookupK_setK_ne _ _ _ _ (by decide),
    lookupK_setK_self]

/-! ## Claims -/

/-- C1: for every baseline/improved metric-set pair whose baseline
`patients_per_worker` (the spec's `units_per_worker`) is zero, the savings
decomposer's additional-revenue computation fails with an error — the
`ZeroDivisionError` Python raises at the ratio on line 226, the situation
the spec's error taxonomy names DataError — rather than falling back
silently or returning a numeric result. -/
theorem claim_savings_zero_units_error (baseline ai_metrics : Metrics)
    (h : baseline.patients_per_worker = 0) :
    calculate_cost_savings baseline ai_metrics = .error .zeroDivisionError := by
  unfold calculate_cost_savings
  rw [if_pos h]

theorem claim_savings_zero_units_error_witness :
    calculate_cost_savings ⟨2, 4, 1/40, 0, 250000⟩ ⟨1, 1, 1, 1, 1⟩
      = .error .zeroDivisionError :=
  claim_savings_zero_units_error ⟨2, 4, 1/40, 0, 250000⟩ ⟨1, 1, 1, 1, 1⟩ rfl

/-- C2 counterexample: at `years = 0` (a horizon `< 1`) the ROI projector
raises nothing and returns a full result — an empty yearly series, payback
absent, zero ROI, and `total_investment = upfront` — so no
ConfigurationError (or any error) is raised at run start, contradicting the
claim. -/
theorem claim_roi_invalid_horizon_cex :
    calculate_roi_analysis 3000000000000 600000000000 1000000000000 0
      = { yearly_analysis := []
          total_roi_percentage := 0
          payback_period_years := none
          total_investment := 3000000000000
          total_savings := 3000000000000
          net_benefit := 0 } := by
  rw [calculate_roi_analysis_eq]
  norm_num [cumNet, List.range', List.find?]

/-- C2 (amended): for every horizon `years < 1` the ROI projector raises no
error at all; `range(1, years + 1)` is empty, so it returns a projection
with an empty yearly series, payback absent, zero total ROI and net
benefit, and `total_investment = upfront_cost + annual_recurring_cost ×
years`. -/
theorem claim_roi_invalid_horizon (u m a : ℚ) (years : ℤ) (h : years < 1) :
    calculate_roi_analysis u m a years
      = { yearly_analysis := []
          total_roi_percentage := 0
          payback_period_years := none
          total_investment := u + m * (years : ℚ)
          total_savings := u
          net_benefit := 0 } := by
  have hn : years.toNat = 0 := by omega
  rw [calculate_roi_analysis_eq, hn]
  simp [cumNet, List.range', List.find?]

theorem claim_roi_invalid_horizon_witness :
    calculate_roi_analysis 1 2 3 (-1)
      = { yearly_analysis := []
          total_roi_percentage := 0
          payback_period_years := none
          total_investment := 1 + 2 * ((-1 : ℤ) : ℚ)
          total_savings := 1
          net_benefit := 0 } :=
  claim_roi_invalid_horizon 1 2 3 (-1) (by decide)

/-- C3 counterexample: on a baseline missing only `admin_hours_per_patient`
(the other four recognized metrics present), the scenario transformer does
not return a mapping at all (`toOption = none`, i.e. it raises `KeyError`),
contradicting the claim that it succeeds on the remaining fields with the
absent field merely left out. -/
theorem claim_transformer_missing_field_cex :
    lookupK missingFieldBaseline "admin_hours_per_patient" = none
    ∧ lookupK missingFieldBaseline "processing_time_hours" = some 4
    ∧ (calculate_ai_impact_metrics ai_improvements missingFieldBaseline).toOption
        = none :=
  ⟨rfl, rfl, rfl⟩

/-- C3 (amended): if any of the five recognized metric fields is absent
from the baseline mapping, the scenario transformer does not succeed: it
fails with a `KeyError` naming a recognized field that is indeed absent
(the field is not silently dropped from a returned mapping). -/
theorem claim_transformer_missing_field (imp : AIImprovements)
    (baseline : MetricMap)
    (hmiss : ∃ k ∈ metricKeys, lookupK baseline k = none) :
    ∃ k2, lookupK baseline k2 = none
      ∧ calculate_ai_impact_metrics imp baseline = .error (.keyError k2) := by
  cases hA : lookupK baseline "admin_hours_per_patient" with
  | none =>
      refine ⟨"admin_hours_per_patient", hA, ?_⟩
      unfold calculate_ai_impact_metrics
      rw [hA]
  | some a =>
  cases hP : lookupK baseline "processing_time_hours" with
  | none =>
      refine ⟨"processing_time_hours", hP, ?_⟩
      unfold calculate_ai_impact_metrics
      rw [hA, hP]
  | some p =>
  cases hE : lookupK baseline "billing_error_rate" with
  | none =>
      refine ⟨"billing_error_rate", hE, ?_⟩
      unfold calculate_ai_impact_metrics
      rw [hA, hP, hE]
  | some e =>
  cases hW : lookupK baseline "patients_per_worker" with
  | none =>
      refine ⟨"patients_per_worker", hW, ?_⟩
      unfold calculate_ai_impact_metrics
      rw [hA, hP, hE, hW]
  | some w =>
  cases hC : lookupK baseline "cost_per_patient" with
  | none =>
      refine ⟨"cost_per_patient", hC, ?_⟩
      unfold calculate_ai_impact_metrics
      rw [hA, hP, hE, hW, hC]
  | some c =>
      obtain ⟨k, hk, hnone⟩ := hmiss
      simp only [metricKeys, List.mem_cons, List.not_mem_nil, or_false] at hk
      rcases hk with rfl | rfl | rfl | rfl | rfl
      · rw [hA] at hnone
        simp at hnone
      · rw [hP] at hnone
        simp at hnone
      · rw [hE] at hnone
        simp at hnone
      · rw [hW] at hnone
        simp at hnone
      · rw [hC] at hnone
        simp at hnone

theorem claim_transformer_missing_field_witness :
    ∃ k2, lookupK missingFieldBaseline k2 = none
      ∧ calculate_ai_impact_metrics ai_improvements missingFieldBaseline
          = .error (.keyError k2) :=
  claim_transformer_missing_field ai_improvements missingFieldBaseline
    ⟨"admin_hours_per_patient", by decide, rfl⟩

/-- C4 counterexample: on the valid baseline `zeroErrBaseline` (whose
`billing_error_rate` is `0`, allowed by the invariant `error_rate ∈ [0,1]`)
and `error_reduction = 1/2 ∈ [0,1)`, the improved error rate equals the
baseline error rate even though `error_reduction ≠ 0`, contradicting
"equality holds only when `error_reduction = 0`". -/
theorem claim_error_rate_equality_cex :
    calculate_ai_impact_metrics zeroErrImp zeroErrBaseline = .ok zeroErrImproved
    ∧ lookupK zeroErrBaseline "billing_error_rate" = some 0
    ∧ lookupK zeroErrImproved "billing_error_rate" = some 0
    ∧ 0 ≤ zeroErrImp.error_reduction
    ∧ zeroErrImp.error_reduction < 1
    ∧ zeroErrImp.error_reduction ≠ 0 := by
  refine ⟨rfl, rfl, ?_, by norm_num [zeroErrImp], by norm_num [zeroErrImp],
    by norm_num [zeroErrImp]⟩
  rw [zeroErrImproved, lookupK_setK_ne _ _ _ _ (by decide),
    lookupK_setK_ne _ _ _ _ (by decide), lookupK_setK_self]
  norm_num

/-- C4 (amended): for every baseline with a non-negative `billing_error_rate`
`e` and every `error_reduction ∈ [0,1)`, the transformed error rate is
`e * (1 - error_reduction)`, which is `≤ e`; it equals `e` exactly when
`error_reduction = 0` or `e = 0` (the claim's "only when
`error_reduction = 0`" fails in the `e = 0` case). -/
theorem claim_error_rate_monotone (imp : AIImprovements)
    (baseline improved : MetricMap) (e : ℚ) (he0 : 0 ≤ e)
    (hE : lookupK baseline "billing_error_rate" = some e)
    (hr0 : 0 ≤ imp.error_reduction) (hr1 : imp.error_reduction < 1)
    (hok : calculate_ai_impact_metrics imp baseline = .ok improved) :
    lookupK improved "billing_error_rate" = some (e * (1 - imp.error_reduction))
    ∧ e * (1 - imp.error_reduction) ≤ e
    ∧ (e * (1 - imp.error_reduction) = e
        ↔ (imp.error_reduction = 0 ∨ e = 0)) := by
  refine ⟨calc_ai_billing_value imp baseline improved e hE hok, ?_, ?_⟩
  · nlinarith [mul_nonneg he0 hr0]
  · have hh : e * (1 - imp.error_reduction) = e - e * imp.error_reduction := by
      ring
    rw [hh]
    constructor
    · intro h2
      have h3 : e * imp.error_reduction = 0 := by linarith
      rcases mul_eq_zero.mp h3 with h4 | h4
      · exact Or.inr h4
      · exact Or.inl h4
    · rintro (h4 | h4) <;> rw [h4] <;> ring

theorem claim_error_rate_monotone_witness :
    lookupK frameImproved "billing_error_rate"
        = some (1 * (1 - ai_improvements.error_reduction))
    ∧ 1 * (1 - ai_improvements.error_reduction) ≤ 1
    ∧ (1 * (1 - ai_improvements.error_reduction) = 1
        ↔ (ai_improvements.error_reduction = 0 ∨ (1 : ℚ) = 0)) :=
  claim_error_rate_monotone ai_improvements frameBaseline frameImproved 1
    (by norm_num) rfl (by norm_num [ai_improvements])
    (by norm_num [ai_improvements]) rfl

/-- C5 counterexample: with the expenditure table present (first row
`90e12`) but the patient-volume table empty, the baseline calculator
returns `cost_per_patient = 90e12 / 47000000`, not the fixed fallback
constant ratio `total_healthcare_cost / 47000000 = 45e12 / 47000000`
the claim's "otherwise" branch requires. -/
theorem claim_cost_per_patient_cex :
    (calculate_baseline_metrics [] [] [] [90 * 10 ^ 12]).toOption.map
        (fun b => b.cost_per_patient)
      = some ((90 * 10 ^ 12 : ℚ) / 47000000)
    ∧ ((90 * 10 ^ 12 : ℚ) / 47000000) ≠ total_healthcare_cost / 47000000 := by
  constructor
  · norm_num [calculate_baseline_metrics, Except.toOption]
  · rw [total_healthcare_cost]
    norm_num

/-- C5 (amended): `cost_per_patient` equals (first-row expenditure) /
(summed patient volume) when both tables are non-empty (and the sum is
nonzero); when the expenditure table is non-empty but the patient table is
empty it equals (first-row expenditure) / 47000000, NOT the fallback
constant ratio; the constant ratio `total_healthcare_cost / 47000000` is
used only when the expenditure table itself is empty. -/
theorem claim_cost_per_patient_cases (admin : List AdminRow)
    (workforce patient expenditure : List ℚ) :
    (∀ c rest, expenditure = c :: rest → patient ≠ [] → patient.sum ≠ 0 →
        (calculate_baseline_metrics admin workforce patient
            expenditure).toOption.map (fun b => b.cost_per_patient)
          = some (c / patient.sum))
    ∧ (∀ c rest, expenditure = c :: rest → patient = [] →
        (calculate_baseline_metrics admin workforce patient
            expenditure).toOption.map (fun b => b.cost_per_patient)
          = some (c / 47000000))
    ∧ (expenditure = [] →
        (calculate_baseline_metrics admin workforce patient
            expenditure).toOption.map (fun b => b.cost_per_patient)
          = some (total_healthcare_cost / 47000000)) := by
  refine ⟨?_, ?_, ?_⟩
  · rintro c rest rfl hp hs
    simp only [calculate_baseline_metrics]
    rw [if_neg hp, if_neg hs]
    simp [Except.toOption]
  · rintro c rest rfl hp
    simp only [calculate_baseline_metrics]
    rw [if_pos hp, if_neg (by norm_num : ¬ (47000000 : ℚ) = 0)]
    simp [Except.toOption]
  · rintro rfl
    simp [calculate_baseline_metrics, Except.toOption]

theorem claim_cost_per_patient_cases_witness :
    (calculate_baseline_metrics [] [] [2] [10]).toOption.map
        (fun b => b.cost_per_patient)
      = some (10 / List.sum ([2] : List ℚ)) :=
  (claim_cost_per_patient_cases [] [] [2] [10]).1 10 [] rfl
    (by simp) (by norm_num)

/-- C6: the reported payback period is `some y` exactly when `y` is the
smallest in-horizon year index (ascending order, `1..years`) whose
`cumulative_net` is `≥ 0` (so a later qualifying year never changes it),
and it is `none` — never a default number — exactly when no year within the
horizon has `cumulative_net ≥ 0`. -/
theorem claim_payback_smallest (u m a : ℚ) (years : ℤ) :
    (∀ y : ℕ,
      ((calculate_roi_analysis u m a years).payback_period_years = some y
        ↔ (1 ≤ y ∧ (y : ℤ) ≤ years ∧ 0 ≤ cumNet a m y
            ∧ ∀ z : ℕ, 1 ≤ z → z < y → cumNet a m z < 0)))
    ∧ ((calculate_roi_analysis u m a years).payback_period_years = none
        ↔ ∀ y : ℕ, 1 ≤ y → (y : ℤ) ≤ years → cumNet a m y < 0) := by
  constructor
  · intro y
    rw [payback_eq, find?_range'_eq_some]
    simp only [decide_eq_true_eq, decide_eq_false_iff_not, not_le]
    constructor
    · rintro ⟨h1, h2, h3, h4⟩
      exact ⟨h1, by omega, h3, h4⟩
    · rintro ⟨h1, h2, h3, h4⟩
      exact ⟨h1, by omega, h3, h4⟩
  · rw [payback_eq, List.find?_eq_none]
    constructor
    · intro h y h1 h2
      have h3 := h y (by rw [List.mem_range'_1]; omega)
      simp only [decide_eq_true_eq, not_le] at h3
      exact h3
    · intro h x hx
      rw [List.mem_range'_1] at hx
      have h3 := h x hx.1 (by omega)
      simp only [decide_eq_true_eq, not_le]
      exact h3

theorem claim_payback_smallest_witness :
    (calculate_roi_analysis 10 0 100 3).payback_period_years = some 1 := by
  refine ((claim_payback_smallest 10 0 100 3).1 1).mpr
    ⟨le_rfl, by decide, ?_, ?_⟩
  · have h1 : cumNet 100 0 1 = 100 := by simp [cumNet]
    rw [h1]
    norm_num
  · intro z hz1 hz2
    omega

/-- C7: for every horizon `years ≥ 1` and in-horizon year `y`, the year-`y`
record has `savings = annual_savings * 1.05^(y-1)`, `costs` equal to the
constant annual maintenance for every year, and `cumulative_net = cumNet … y`
— the running sum of `(yearly_savings - yearly_costs)` started at `0`, which
by definition of `cumNet` never includes the upfront cost; and the result's
`total_investment = upfront_cost + annual_maintenance * years`. -/
theorem claim_roi_year_values (u m a : ℚ) (years : ℤ) (y : ℕ)
    (h1 : 1 ≤ y) (h2 : (y : ℤ) ≤ years) :
    ((calculate_roi_analysis u m a years).yearly_analysis[y - 1]?).map
        (fun r => (r.savings, r.costs, r.cumulative_net))
      = some (a * (21/20 : ℚ) ^ (y - 1), m, cumNet a m y)
    ∧ (calculate_roi_analysis u m a years).total_investment
      = u + m * (years : ℚ) := by
  refine ⟨?_, total_investment_eq u m a years⟩
  rw [yearly_analysis_eq]
  have hy : y - 1 < years.toNat := by omega
  rw [List.getElem?_map, List.getElem?_range' _ _ hy]
  have he : 1 + 1 * (y - 1) = y := by omega
  rw [he]
  simp [yearRec]

theorem claim_roi_year_values_witness :
    ((calculate_roi_analysis 10 2 5 1).yearly_analysis[1 - 1]?).map
        (fun r => (r.savings, r.costs, r.cumulative_net))
      = some (5 * (21/20 : ℚ) ^ (1 - 1), 2, cumNet 5 2 1)
    ∧ (calculate_roi_analysis 10 2 5 1).total_investment
      = 10 + 2 * ((1 : ℤ) : ℚ) :=
  claim_roi_year_values 10 2 5 1 1 le_rfl (by decide)

/-- C8: with `upfront_cost = 0` the ROI projector never divides: the
`0 < upfront_cost` guard on the division branch fails, so every year's
`roi_percentage` is `0` and `total_roi_percentage` is `0`. -/
theorem claim_roi_zero_upfront (m a : ℚ) (years : ℤ) (u : ℚ) (hu : u = 0) :
    (∀ r ∈ (calculate_roi_analysis u m a years).yearly_analysis,
        r.roi_percentage = 0)
    ∧ (calculate_roi_analysis u m a years).total_roi_percentage = 0 := by
  subst hu
  constructor
  · intro r hr
    rw [yearly_analysis_eq] at hr
    simp only [List.mem_map] at hr
    obtain ⟨y, -, rfl⟩ := hr
    simp [yearRec]
  · rw [total_roi_eq]
    simp

theorem claim_roi_zero_upfront_witness :
    (∀ r ∈ (calculate_roi_analysis 0 5 7 2).yearly_analysis,
        r.roi_percentage = 0)
    ∧ (calculate_roi_analysis 0 5 7 2).total_roi_percentage = 0 :=
  claim_roi_zero_upfront 5 7 2 0 rfl

/-- C9: whenever the savings decomposer returns a breakdown, its
`total_annual_savings` exactly equals the sum of the four named categories
(admin labor, error cost, additional revenue, processing efficiency). -/
theorem claim_savings_total_eq_sum (baseline ai_metrics : Metrics)
    (s : Savings) (h : calculate_cost_savings baseline ai_metrics = .ok s) :
    s.total_annual_savings
      = s.admin_labor_savings + s.error_cost_savings + s.additional_revenue
        + s.processing_efficiency_savings := by
  unfold calculate_cost_savings at h
  by_cases h0 : baseline.patients_per_worker = 0
  · rw [if_pos h0] at h
    exact absurd h (by simp)
  · rw [if_neg h0] at h
    injection h with h2
    subst h2
    rfl

theorem claim_savings_total_eq_sum_witness :
    (⟨0, 0, 0, 0, 0⟩ : Savings).total_annual_savings
      = (⟨0, 0, 0, 0, 0⟩ : Savings).admin_labor_savings
        + (⟨0, 0, 0, 0, 0⟩ : Savings).error_cost_savings
        + (⟨0, 0, 0, 0, 0⟩ : Savings).additional_revenue
        + (⟨0, 0, 0, 0, 0⟩ : Savings).processing_efficiency_savings :=
  claim_savings_total_eq_sum ⟨2, 4, 1/40, 20, 250000⟩ ⟨2, 4, 1/40, 20, 250000⟩
    ⟨0, 0, 0, 0, 0⟩
    (by norm_num [calculate_cost_savings, annual_patients, average_hourly_wage,
      error_cost_multiplier])

/-- C10: the scenario transformer is pure — the baseline value is never
mutated (`ai_metrics = baseline.copy()` is the only derivation, reflected
here by the embedding being a function of the unchanged baseline) — and on
success every key outside the five recognized metric names keeps its
original baseline binding in the returned mapping. -/
theorem claim_transformer_frame (imp : AIImprovements)
    (baseline improved : MetricMap)
    (h : calculate_ai_impact_metrics imp baseline = .ok improved)
    (k : String) (hk : k ∉ metricKeys) :
    lookupK improved k = lookupK baseline k := by
  obtain ⟨a, p, e, w, c, -, -, -, -, -, rfl⟩ :=
    calc_ai_ok_elim imp baseline improved h
  simp only [metricKeys, List.mem_cons, List.not_mem_nil, or_false,
    not_or] at hk
  obtain ⟨h1, h2, h3, h4, h5⟩ := hk
  rw [lookupK_setK_ne _ _ _ _ h5, lookupK_setK_ne _ _ _ _ h4,
    lookupK_setK_ne _ _ _ _ h3, lookupK_setK_ne _ _ _ _ h2,
    lookupK_setK_ne _ _ _ _ h1]

theorem claim_transformer_frame_witness :
    lookupK frameImproved "extra_key" = lookupK frameBaseline "extra_key" :=
  claim_transformer_frame ai_improvements frameBaseline frameImproved rfl
    "extra_key" (by decide)
